import Mathlib

/-!
Verification development for the dashboard-stores repository.

The embedding models the Layout Manager (the `DashboardProvider` in
`WidgetEditor.tsx`), the widget registry (`createWidgetInstance`), the
storage wrapper (`useLocalStorage`) and the config hook (`useWidgetConfig`).

Modelling conventions:
* JSON values carried opaquely by the manager are modelled by `JsonVal`.
* `Date.now()` / `new Date().toISOString()` timestamps are modelled by an
  explicit `now : Nat` argument; id strings built from timestamps are built
  from `toString now`.
* React/`useLocalStorage` state-update semantics are modelled faithfully:
  the setter returned by `useLocalStorage` applies a functional update to
  the value captured at render time (`storedValue` in its closure), not to
  the latest queued value, and it wraps the whole update (including the
  call of the updater function) in try/catch, logging a caught error and
  leaving the stored value unchanged.  Two setter calls inside one event
  handler therefore both compute from the same snapshot and the second
  write wins.
-/

/-- Opaque JSON scalar values; the layout manager never inspects them,
so scalars suffice for every claim about the manager/config code. -/
inductive JsonVal where
  | str (s : String)
  | num (n : Int)
  | jbool (b : Bool)
  | null
deriving DecidableEq

/-- A JS object (`Record<string, any>`), as an association list of fields. -/
abbrev Obj := List (String × JsonVal)

/-- Field lookup in a JS object (first binding wins). -/
def Obj.get (o : Obj) (k : String) : Option JsonVal :=
  (o.find? (fun p => p.1 == k)).map (fun p => p.2)

/-- Whether a JS object has a field named `k`. -/
def Obj.hasKey (o : Obj) (k : String) : Bool :=
  (Obj.get o k).isSome

/-- JS object spread `\x7b...a, ...b\x7d`: fields of `b` override fields of `a`. -/
def Obj.spread (a b : Obj) : Obj :=
  a.filter (fun p => !(Obj.hasKey b p.1)) ++ b

/-- JS `a || b` for an optional string: `undefined` and `""` are falsy. -/
def jsOr (a : Option String) (b : String) : String :=
  match a with
  | some s => if s == "" then b else s
  | none => b

/-- Widget size category (`"small" | "medium" | "large"`). -/
inductive WidgetSize where
  | small
  | medium
  | large
deriving DecidableEq

/-- Widget category (`"analytics" | "data" | "tools" | "custom"`). -/
inductive WidgetCategory where
  | analytics
  | data
  | tools
  | custom
deriving DecidableEq

/-- Grid rectangle `\x7bx, y, w, h\x7d` stored in `WidgetInstance.position`.
Grid coordinates are zero-based cells (data model of the spec), so `Nat`. -/
structure GridPos where
  x : Nat
  y : Nat
  w : Nat
  h : Nat
deriving DecidableEq

/-- `WidgetInstance` from `WidgetEditor.tsx`. -/
structure WidgetInstance where
  id : String
  widgetId : String
  title : String
  position : GridPos
  size : WidgetSize
  config : Option Obj
deriving DecidableEq

/-- `DashboardLayout` from `WidgetEditor.tsx`; ISO timestamp strings are
modelled as the `Nat` clock value they were produced from. -/
structure DashboardLayout where
  id : String
  name : String
  widgets : List WidgetInstance
  createdAt : Nat
  updatedAt : Nat
deriving DecidableEq

/-- `WidgetMetadata` from the widget registry module. -/
structure WidgetMetadata where
  name : String
  description : String
  version : String
  author : String
  category : WidgetCategory
  icon : String
  defaultSize : WidgetSize
  defaultConfig : Obj
deriving DecidableEq

/-- The widget registry: a mapping from definition id to metadata
(the React component of each entry is render-only and not modelled). -/
abbrev WidgetRegistry := List (String × WidgetMetadata)

/-- `widgetRegistry[widgetId]` lookup. -/
def lookupRegistry (registry : WidgetRegistry) (widgetId : String) : Option WidgetMetadata :=
  (registry.find? (fun p => p.1 == widgetId)).map (fun p => p.2)

/-- The built-in `widgetRegistry` (metadata of the four registered widgets;
`defaultConfig` values are carried opaquely, arrays flattened to opaque
string placeholders is avoided: only scalar fields are listed, and the
array-valued fields are irrelevant to every claim, which never reads
`defaultConfig` contents). -/
def widgetRegistry : WidgetRegistry :=
  [ ("analytics-chart",
      { name := "Analytics Chart"
        description := "A customizable chart widget for analytics data"
        version := "1.0.0"
        author := "Enterprise Widget Platform"
        category := WidgetCategory.analytics
        icon := "BarChart"
        defaultSize := WidgetSize.medium
        defaultConfig := [("chartType", JsonVal.str "bar"), ("showLegend", JsonVal.jbool true)] }),
    ("status-widget",
      { name := "Status Widget"
        description := "A widget to display status information"
        version := "1.0.0"
        author := "Enterprise Widget Platform"
        category := WidgetCategory.tools
        icon := "Activity"
        defaultSize := WidgetSize.small
        defaultConfig := [] }),
    ("code-editor",
      { name := "Code Editor"
        description := "A simple code editor widget"
        version := "1.0.0"
        author := "Enterprise Widget Platform"
        category := WidgetCategory.tools
        icon := "Code"
        defaultSize := WidgetSize.large
        defaultConfig := [("language", JsonVal.str "javascript"), ("readOnly", JsonVal.jbool false)] }),
    ("data-display",
      { name := "Data Display"
        description := "A widget to display data from an API endpoint"
        version := "1.0.0"
        author := "Enterprise Widget Platform"
        category := WidgetCategory.data
        icon := "Database"
        defaultSize := WidgetSize.small
        defaultConfig := [("endpoint", JsonVal.str "https://api.example.com/widgets/data"), ("recordCount", JsonVal.num 1245)] }) ]

/-- `Widget` returned by `createWidgetInstance` (the `content` React node is
render-only and not modelled). -/
structure Widget where
  id : String
  title : String
  type : String
  size : WidgetSize
  category : WidgetCategory
deriving DecidableEq

/-- `createWidgetInstance` from the widget registry module: `null` on a
registry miss, otherwise the instantiated widget. -/
def createWidgetInstance (registry : WidgetRegistry) (widgetId instanceId : String)
    (title : Option String) (config : Option Obj) (size : Option WidgetSize) : Option Widget :=
  match lookupRegistry registry widgetId with
  | none => none
  | some md =>
    some { id := instanceId
           title := jsOr title md.name
           type := widgetId
           size := size.getD md.defaultSize
           category := md.category }

/-- `DEFAULT_WIDGET_DIMENSIONS` from `WidgetEditor.tsx`: `(w, h)` per size. -/
def defaultWidgetDimensions : WidgetSize → Nat × Nat
  | WidgetSize.small => (1, 1)
  | WidgetSize.medium => (2, 1)
  | WidgetSize.large => (2, 2)

/-- The dashboard provider state: the persisted layout list
(`dashboard-layouts`) and active-layout pointer (`current-dashboard-layout`). -/
structure DashState where
  layouts : List DashboardLayout
  currentLayoutId : String
deriving DecidableEq

/-- `currentLayout`: `layouts?.find((layout) => layout.id === currentLayoutId) || null`. -/
def currentLayoutOf (s : DashState) : Option DashboardLayout :=
  s.layouts.find? (fun l => l.id == s.currentLayoutId)

/-- `createLayout(name)`: appends a fresh layout (id `layout-<now>`) and
makes it active; returns the new layout with the new state. -/
def createLayoutPure (name : String) (now : Nat) (s : DashState) : DashboardLayout × DashState :=
  let newLayout : DashboardLayout :=
    { id := "layout-" ++ toString now
      name := name
      widgets := []
      createdAt := now
      updatedAt := now }
  (newLayout, { layouts := s.layouts ++ [newLayout], currentLayoutId := newLayout.id })

/-- `deleteLayout(layoutId)` from `WidgetEditor.tsx`: filter the layout out;
if the deleted id was the active pointer and layouts remain, the first
remaining layout becomes active; if none remain the pointer is cleared. -/
def deleteLayout (layoutId : String) (s : DashState) : DashState :=
  let updatedLayouts := s.layouts.filter (fun l => !(l.id == layoutId))
  match updatedLayouts with
  | [] => { layouts := [], currentLayoutId := "" }
  | first :: rest =>
    { layouts := first :: rest
      currentLayoutId :=
        if layoutId == s.currentLayoutId then first.id else s.currentLayoutId }

/-- The grid column count of `findAvailablePosition` (`gridWidth = 4`). -/
def gridWidth : Nat := 4

/-- The pre-scanned grid row count of `findAvailablePosition` (`gridHeight = 10`). -/
def gridHeight : Nat := 10

/-- Whether widget instance `wi`'s rectangle covers cell `(row i, column j)`. -/
def coversCell (wi : WidgetInstance) (i j : Nat) : Bool :=
  decide (wi.position.y ≤ i) && decide (i < wi.position.y + wi.position.h) &&
  decide (wi.position.x ≤ j) && decide (j < wi.position.x + wi.position.w)

/-- The occupancy grid, as a cell lookup function. -/
abbrev OccGrid := Nat → Nat → Bool

/-- The freshly initialised grid: every cell empty. -/
def emptyGrid : OccGrid := fun _ _ => false

/-- Marking loop body of `findAvailablePosition`: mark every cell of the
widget's rectangle, clipped to the grid bounds. -/
def markWidget (g : OccGrid) (wi : WidgetInstance) : OccGrid :=
  fun i j =>
    if coversCell wi i j && decide (i < gridHeight) && decide (j < gridWidth) then true
    else g i j

/-- The `widgets.forEach` marking pass of `findAvailablePosition`. -/
def buildGrid (widgets : List WidgetInstance) : OccGrid :=
  widgets.foldl markWidget emptyGrid

/-- The `canFit` check of `findAvailablePosition`: every cell of the
`width × height` rectangle at `(x, y)` is in bounds and unoccupied. -/
def canFit (g : OccGrid) (x y width height : Nat) : Bool :=
  (List.range height).all fun di =>
    (List.range width).all fun dj =>
      !(decide (gridHeight ≤ y + di) || decide (gridWidth ≤ x + dj) || g (y + di) (x + dj))

/-- `findAvailablePosition(widgets, width, height)` from `WidgetEditor.tsx`:
row-major first-fit scan over the 4×10 grid; `(0, gridHeight)` fallback.
The JS inner loop bound `x < gridWidth - width + 1` is evaluated over
integers and scans no `x` when it is non-positive, which coincides with
truncated subtraction in `gridWidth + 1 - width`. -/
def findAvailablePosition (widgets : List WidgetInstance) (width height : Nat) : GridPos :=
  let g := buildGrid widgets
  match (List.range gridHeight).findSome? (fun y =>
      ((List.range (gridWidth + 1 - width)).find? (fun x => canFit g x y width height)).map
        (fun x => GridPos.mk x y width height)) with
  | some p => p
  | none => ⟨0, gridHeight, width, height⟩

/-- Spec translation (for the refinement claim): cell `(i, j)` is occupied
when some existing instance's rectangle covers it. -/
def specCellOccupied (widgets : List WidgetInstance) (i j : Nat) : Bool :=
  widgets.any (fun wi => coversCell wi i j)

/-- Spec translation: the full `w × h` rectangle at `(x, y)` lies inside the
pre-scanned 4×10 grid and every one of its cells is unoccupied. -/
def specRectFree (widgets : List WidgetInstance) (x y w h : Nat) : Bool :=
  decide (y + h ≤ gridHeight) && decide (x + w ≤ gridWidth) &&
  ((List.range h).all fun di =>
    (List.range w).all fun dj =>
      !specCellOccupied widgets (y + di) (x + dj))

/-- Spec translation of the placement scan: the first position, scanning `y`
from 0 upward and `x` from 0 to `gridWidth - w` inclusive within each row,
whose rectangle is free. -/
def specFirstFit (widgets : List WidgetInstance) (w h : Nat) : Option (Nat × Nat) :=
  (List.range gridHeight).findSome? fun y =>
    ((List.range (gridWidth - w + 1)).find? (fun x => specRectFree widgets x y w h)).map
      (fun x => (x, y))

/-- The `setLayouts` updater of `addWidget` (the arrow function passed to
`setLayouts`): maps over the layout list, appending the new instance to the
layout matching `targetId`; a registry miss is the thrown
`Widget with ID ... not found in registry` error, modelled by `Except.error`. -/
def mapAddWidget (registry : WidgetRegistry) (widgetId : String) (title : Option String)
    (config : Option Obj) (now : Nat) (targetId : String) :
    List DashboardLayout → Except String (List DashboardLayout)
  | [] => Except.ok []
  | layout :: rest =>
    if layout.id == targetId then
      match createWidgetInstance registry widgetId ("widget-" ++ widgetId ++ "-" ++ toString now)
          title config none with
      | none => Except.error ("Widget with ID " ++ widgetId ++ " not found in registry")
      | some wi =>
        let dims := defaultWidgetDimensions wi.size
        let position := findAvailablePosition layout.widgets dims.1 dims.2
        let newInst : WidgetInstance :=
          { id := "widget-" ++ widgetId ++ "-" ++ toString now
            widgetId := widgetId
            title := jsOr title wi.title
            position := position
            size := wi.size
            config := config }
        match mapAddWidget registry widgetId title config now targetId rest with
        | Except.ok rest' =>
          Except.ok ({ layout with widgets := layout.widgets ++ [newInst], updatedAt := now } :: rest')
        | Except.error e => Except.error e
    else
      match mapAddWidget registry widgetId title config now targetId rest with
      | Except.ok rest' => Except.ok (layout :: rest')
      | Except.error e => Except.error e

/-- One invocation of `addWidget(widgetId, title?, config?)`, returning the
committed state and the error message logged by the storage setter's catch
block (if the updater threw).

Faithful to the hook semantics: when no current layout resolves,
`createLayout("Default Layout")` issues a first `setLayouts` write and moves
the pointer; the subsequent `setLayouts(fn)` call computes `fn` on the
render-time snapshot (`s.layouts`, `s.currentLayoutId` — both stale), and
its write supersedes the first one.  A throw inside `fn` is caught by
`useLocalStorage.setValue`'s try/catch: the layouts write is dropped (the
first write, if any, stands) and the error is only logged. -/
def addWidgetRun (registry : WidgetRegistry) (widgetId : String) (title : Option String)
    (config : Option Obj) (now : Nat) (s : DashState) : DashState × Option String :=
  let afterCreate : DashState :=
    match currentLayoutOf s with
    | none => (createLayoutPure "Default Layout" now s).2
    | some _ => s
  match mapAddWidget registry widgetId title config now s.currentLayoutId s.layouts with
  | Except.ok layouts2 =>
    ({ layouts := layouts2, currentLayoutId := afterCreate.currentLayoutId }, none)
  | Except.error e =>
    ({ layouts := afterCreate.layouts, currentLayoutId := afterCreate.currentLayoutId }, some e)

/-- One `addWidget` call's arguments, with its `Date.now()` clock value. -/
structure AddCall where
  widgetId : String
  title : Option String
  config : Option Obj
  now : Nat

/-- A sequence of `addWidget` calls, each one issued in its own event
handler (so each one sees the state committed by the previous call). -/
def runAdds (registry : WidgetRegistry) : List AddCall → DashState → DashState
  | [], s => s
  | c :: cs, s => runAdds registry cs (addWidgetRun registry c.widgetId c.title c.config c.now s).1

/-- `removeWidget(instanceId)` from `WidgetEditor.tsx`. -/
def removeWidget (instanceId : String) (now : Nat) (s : DashState) : DashState :=
  { s with
    layouts := s.layouts.map fun layout =>
      if layout.id == s.currentLayoutId then
        { layout with
          widgets := layout.widgets.filter (fun w => !(w.id == instanceId))
          updatedAt := now }
      else layout }

/-- `Partial<WidgetInstance>`: fields present in the update object. -/
structure InstanceUpdate where
  id : Option String
  widgetId : Option String
  title : Option String
  position : Option GridPos
  size : Option WidgetSize
  config : Option Obj

/-- JS spread `\x7b...widget, ...updates\x7d` of a partial update. -/
def applyInstanceUpdate (w : WidgetInstance) (u : InstanceUpdate) : WidgetInstance :=
  { id := u.id.getD w.id
    widgetId := u.widgetId.getD w.widgetId
    title := u.title.getD w.title
    position := u.position.getD w.position
    size := u.size.getD w.size
    config := match u.config with
      | some c => some c
      | none => w.config }

/-- `updateWidget(instanceId, updates)` from `WidgetEditor.tsx`. -/
def updateWidget (instanceId : String) (u : InstanceUpdate) (now : Nat) (s : DashState) : DashState :=
  { s with
    layouts := s.layouts.map fun layout =>
      if layout.id == s.currentLayoutId then
        { layout with
          widgets := layout.widgets.map
            (fun w => if w.id == instanceId then applyInstanceUpdate w u else w)
          updatedAt := now }
      else layout }

/-- `updateWidgetPositions(updates)` from `WidgetEditor.tsx`: batch position
update by instance id; entries matching no instance are ignored. -/
def updateWidgetPositions (updates : List (String × GridPos)) (now : Nat) (s : DashState) : DashState :=
  { s with
    layouts := s.layouts.map fun layout =>
      if layout.id == s.currentLayoutId then
        { layout with
          widgets := layout.widgets.map fun w =>
            match updates.find? (fun u => u.1 == w.id) with
            | none => w
            | some u => { w with position := u.2 }
          updatedAt := now }
      else layout }

/-- The browser local storage contents, key to raw string. -/
abbrev LocalStore := List (String × String)

/-- `window.localStorage.getItem(key)`. -/
def lsGetItem (store : LocalStore) (key : String) : Option String :=
  (store.find? (fun p => p.1 == key)).map (fun p => p.2)

/-- `getStoredValue` of `useLocalStorage`: read the key, deserialize if
`parseJson`; an absent key yields the default, and a deserializer failure
(`JSON.parse` throwing, modelled by `none`) is caught by the surrounding
try/catch, which logs and yields the default.  The function is total: no
error propagates to the caller. -/
def getStoredValue (parseJson : Bool) (deserializer : String → Option JsonVal)
    (defaultValue : Option JsonVal) (store : LocalStore) (key : String) : Option JsonVal :=
  match lsGetItem store key with
  | some item =>
    if parseJson then
      match deserializer item with
      | some v => some v
      | none => defaultValue
    else some (JsonVal.str item)
  | none => defaultValue

/-- `WidgetConfigData` from `useWidgetConfig.ts`. -/
structure WidgetConfigData where
  widgetId : String
  instanceId : String
  settings : Obj
  version : String
  updatedAt : Nat
deriving DecidableEq

/-- The argument of `updateConfig`: either a plain settings object or an
updater function of the previous settings. -/
inductive ConfigUpdate where
  | value (o : Obj)
  | fn (f : Obj → Obj)

/-- Apply a `ConfigUpdate` to previous settings (`typeof newConfig === "function"`). -/
def applyConfigUpdate (u : ConfigUpdate) (prev : Obj) : Obj :=
  match u with
  | ConfigUpdate.value o => o
  | ConfigUpdate.fn f => f prev

/-- `updateConfig` of `useWidgetConfig.ts`: build fresh config data when none
is stored, otherwise replace `settings` with the applied update and refresh
`updatedAt`. -/
def updateConfig (widgetId instanceId : String) (initialConfig : Option Obj) (defaultConfig : Obj)
    (u : ConfigUpdate) (now : Nat) (currentData : Option WidgetConfigData) : WidgetConfigData :=
  match currentData with
  | none =>
    { widgetId := widgetId
      instanceId := instanceId
      settings := applyConfigUpdate u (initialConfig.getD defaultConfig)
      version := "1.0.0"
      updatedAt := now }
  | some cd =>
    { cd with settings := applyConfigUpdate u cd.settings, updatedAt := now }

/-- The `config` memo of `useWidgetConfig.ts`:
`configData?.settings || initialConfig || defaultConfig` (a settings object
is always truthy). -/
def readConfig (initialConfig : Option Obj) (defaultConfig : Obj)
    (configData : Option WidgetConfigData) : Obj :=
  match configData with
  | some cd => cd.settings
  | none => initialConfig.getD defaultConfig

/-- Cell `(i, j)` lies in rectangle `p`. -/
def cellInRect (p : GridPos) (i j : Nat) : Prop :=
  p.y ≤ i ∧ i < p.y + p.h ∧ p.x ≤ j ∧ j < p.x + p.w

/-- Two grid rectangles intersect: some cell lies in both. -/
def rectsOverlap (p q : GridPos) : Prop :=
  ∃ i j, cellInRect p i j ∧ cellInRect q i j

/-- No two instances of the list have intersecting rectangles. -/
def pairwiseDisjoint (ws : List WidgetInstance) : Prop :=
  ws.Pairwise (fun a b => ¬ rectsOverlap a.position b.position)

/-- An instance's rectangle lies inside the pre-scanned 4×10 grid. -/
abbrev withinGrid (wi : WidgetInstance) : Prop :=
  wi.position.y + wi.position.h ≤ gridHeight ∧ wi.position.x + wi.position.w ≤ gridWidth

/-- The active layout's widget list (empty when no layout is active). -/
def activeWidgets (s : DashState) : List WidgetInstance :=
  ((currentLayoutOf s).map (fun l => l.widgets)).getD []

/-- Layout lists agree on every layout other than the one with id `cur`. -/
def sameOnOthers (cur : String) (xs ys : List DashboardLayout) : Prop :=
  xs.filter (fun l => !(l.id == cur)) = ys.filter (fun l => !(l.id == cur))

/-- The twelve `addWidget("code-editor")` calls of the C2 counterexample. -/
def c2calls : List AddCall :=
  (List.range 12).map (fun i => { widgetId := "code-editor", title := none, config := none, now := i + 1 })

/-- The marking fold computes: a cell is set when some widget covers it and
it lies within the grid bounds (or it was already set in the accumulator). -/
theorem foldl_markWidget_eq (ws : List WidgetInstance) (g : OccGrid) (i j : Nat) :
    List.foldl markWidget g ws i j =
      (g i j || (specCellOccupied ws i j && decide (i < gridHeight) && decide (j < gridWidth))) := by
  induction ws generalizing g with
  | nil => simp [specCellOccupied]
  | cons wi rest ih =>
    simp only [List.foldl_cons, ih, markWidget, specCellOccupied, List.any_cons]
    cases h1 : coversCell wi i j <;> cases h2 : decide (i < gridHeight) <;>
      cases h3 : decide (j < gridWidth) <;> cases g i j <;> simp

/-- Grid lookup after the marking pass. -/
theorem buildGrid_eq (ws : List WidgetInstance) (i j : Nat) :
    buildGrid ws i j =
      (specCellOccupied ws i j && decide (i < gridHeight) && decide (j < gridWidth)) := by
  simpa [buildGrid, emptyGrid] using foldl_markWidget_eq ws emptyGrid i j

/-- Unfolding of the fit check over the built grid. -/
theorem canFit_iff (ws : List WidgetInstance) (x y w h : Nat) :
    canFit (buildGrid ws) x y w h = true ↔
      ∀ di, di < h → ∀ dj, dj < w →
        y + di < gridHeight ∧ x + dj < gridWidth ∧
          specCellOccupied ws (y + di) (x + dj) = false := by
  simp only [canFit, List.all_eq_true, List.mem_range, Bool.not_eq_true', Bool.or_eq_false_iff,
    decide_eq_false_iff_not, Nat.not_le]
  constructor
  · intro hall di hdi dj hdj
    obtain ⟨⟨h1, h2⟩, h3⟩ := hall di hdi dj hdj
    refine ⟨h1, h2, ?_⟩
    rw [buildGrid_eq] at h3
    simpa [h1, h2] using h3
  · intro hall di hdi dj hdj
    obtain ⟨h1, h2, h3⟩ := hall di hdi dj hdj
    refine ⟨⟨h1, h2⟩, ?_⟩
    rw [buildGrid_eq]
    simp [h3]

/-- Unfolding of the spec-side rectangle-free check. -/
theorem specRectFree_iff (ws : List WidgetInstance) (x y w h : Nat) :
    specRectFree ws x y w h = true ↔
      (y + h ≤ gridHeight ∧ x + w ≤ gridWidth ∧
       ∀ di, di < h → ∀ dj, dj < w → specCellOccupied ws (y + di) (x + dj) = false) := by
  simp [specRectFree, List.all_eq_true, List.mem_range, Bool.not_eq_true', and_assoc]

/-- Inside the scanned ranges, the code's fit check and the spec's
rectangle-free check agree. -/
theorem canFit_eq_specRectFree (ws : List WidgetInstance) (x y w h : Nat)
    (hw : 1 ≤ w) (hy : y < gridHeight) (hxw : x + w ≤ gridWidth) :
    canFit (buildGrid ws) x y w h = specRectFree ws x y w h := by
  have hiff : canFit (buildGrid ws) x y w h = true ↔ specRectFree ws x y w h = true := by
    rw [canFit_iff, specRectFree_iff]
    constructor
    · intro hall
      refine ⟨?_, hxw, fun di hdi dj hdj => (hall di hdi dj hdj).2.2⟩
      rcases Nat.eq_zero_or_pos h with hz | hpos
      · omega
      · have := (hall (h - 1) (by omega) 0 (by omega)).1
        omega
    · rintro ⟨hyh, -, hall⟩
      intro di hdi dj hdj
      exact ⟨by omega, by omega, hall di hdi dj hdj⟩
  cases hc : canFit (buildGrid ws) x y w h <;> cases hs : specRectFree ws x y w h <;>
    simp_all

/-- Congruence for `find?` under pointwise agreement on the list. -/
theorem find?_congr {α : Type _} {p q : α → Bool} {l : List α}
    (h : ∀ a ∈ l, p a = q a) : l.find? p = l.find? q := by
  induction l with
  | nil => rfl
  | cons a l ih =>
    simp only [List.find?]
    rw [h a (List.mem_cons_self a l)]
    cases q a
    · exact ih fun b hb => h b (List.mem_cons_of_mem a hb)
    · rfl

/-- Congruence for `findSome?` under pointwise agreement on the list. -/
theorem findSome?_congr {α β : Type _} {f g : α → Option β} {l : List α}
    (h : ∀ a ∈ l, f a = g a) : l.findSome? f = l.findSome? g := by
  induction l with
  | nil => rfl
  | cons a l ih =>
    rw [List.findSome?_cons, List.findSome?_cons, h a (List.mem_cons_self a l)]
    cases g a
    · exact ih fun b hb => h b (List.mem_cons_of_mem a hb)
    · rfl

/-- `findSome?` of a mapped result. -/
theorem findSome?_option_map {α β γ : Type _} (f : α → Option β) (gm : β → γ) (l : List α) :
    l.findSome? (fun a => (f a).map gm) = (l.findSome? f).map gm := by
  induction l with
  | nil => rfl
  | cons a l ih =>
    rw [List.findSome?_cons, List.findSome?_cons]
    cases f a
    · simpa using ih
    · rfl

/-- The code's placement function equals the spec's row-major first-fit scan,
with the `(0, 10)` fallback when no in-grid position is free. -/
theorem findAvailablePosition_eq_specFirstFit (ws : List WidgetInstance) (w h : Nat)
    (hw1 : 1 ≤ w) (hw4 : w ≤ gridWidth) :
    findAvailablePosition ws w h =
      (match specFirstFit ws w h with
       | some (x, y) => ⟨x, y, w, h⟩
       | none => ⟨0, gridHeight, w, h⟩) := by
  have hb : gridWidth + 1 - w = gridWidth - w + 1 := by omega
  have hinner : ∀ y ∈ List.range gridHeight,
      ((List.range (gridWidth - w + 1)).find? (fun x => canFit (buildGrid ws) x y w h)).map
          (fun x => GridPos.mk x y w h)
        = (((List.range (gridWidth - w + 1)).find? (fun x => specRectFree ws x y w h)).map
            (fun x => (x, y))).map (fun p => GridPos.mk p.1 p.2 w h) := by
    intro y hy
    rw [find?_congr (fun x hx => canFit_eq_specRectFree ws x y w h hw1
      (List.mem_range.mp hy) (by have := List.mem_range.mp hx; omega))]
    rw [Option.map_map]
    rfl
  unfold findAvailablePosition specFirstFit
  simp only [hb]
  rw [findSome?_congr hinner, findSome?_option_map]
  cases hfind : (List.range gridHeight).findSome? (fun y =>
      ((List.range (gridWidth - w + 1)).find? (fun x => specRectFree ws x y w h)).map
        (fun x => (x, y))) with
  | none => rfl
  | some p => rfl

/-- C1: the placement algorithm is deterministic first-fit in row-major scan
order: for every list of existing instances and footprint `(w, h)` with
`1 ≤ w ≤ 4`, whenever the spec's row-major scan (y from 0 upward, x from 0
to `4 - w` inclusive) finds a first position `(x, y)` whose full `w × h`
rectangle is unoccupied inside the pre-scanned 4×10 grid,
`findAvailablePosition` returns exactly that position. -/
theorem c1_first_fit_row_major (ws : List WidgetInstance) (w h x y : Nat)
    (hw1 : 1 ≤ w) (hw4 : w ≤ 4)
    (hfirst : specFirstFit ws w h = some (x, y)) :
    findAvailablePosition ws w h = ⟨x, y, w, h⟩ := by
  rw [findAvailablePosition_eq_specFirstFit ws w h hw1 hw4, hfirst]

/-- Witness for C1, reproducing the spec's example: on an empty grid a 2×1
widget goes to (0,0), the next to (2,0), and the third to (0,1). -/
theorem c1_first_fit_row_major_witness :
    findAvailablePosition [] 2 1 = ⟨0, 0, 2, 1⟩ ∧
    findAvailablePosition
      [{ id := "a", widgetId := "analytics-chart", title := "A",
         position := ⟨0, 0, 2, 1⟩, size := WidgetSize.medium, config := none }] 2 1
      = ⟨2, 0, 2, 1⟩ ∧
    findAvailablePosition
      [{ id := "a", widgetId := "analytics-chart", title := "A",
         position := ⟨0, 0, 2, 1⟩, size := WidgetSize.medium, config := none },
       { id := "b", widgetId := "analytics-chart", title := "B",
         position := ⟨2, 0, 2, 1⟩, size := WidgetSize.medium, config := none }] 2 1
      = ⟨0, 1, 2, 1⟩ :=
  ⟨c1_first_fit_row_major [] 2 1 0 0 (by decide) (by decide) (by decide),
   c1_first_fit_row_major _ 2 1 2 0 (by decide) (by decide) (by decide),
   c1_first_fit_row_major _ 2 1 0 1 (by decide) (by decide) (by decide)⟩

/-- C3: the placement algorithm always succeeds — `findAvailablePosition` is
total, and whenever no position inside the pre-scanned 4×10 grid fits the
footprint (`1 ≤ w ≤ 4`), it returns the fallback `(x = 0, y = 10)`, so
`addWidget` never fails with a no-space condition. -/
theorem c3_placement_fallback (ws : List WidgetInstance) (w h : Nat)
    (hw1 : 1 ≤ w) (hw4 : w ≤ 4)
    (hnone : specFirstFit ws w h = none) :
    findAvailablePosition ws w h = ⟨0, 10, w, h⟩ := by
  rw [findAvailablePosition_eq_specFirstFit ws w h hw1 hw4, hnone]
  rfl

/-- Witness for C3: a widget covering the whole 4×10 grid leaves no free
position, and the scan falls back to (0, 10). -/
theorem c3_placement_fallback_witness :
    findAvailablePosition
      [{ id := "full", widgetId := "status-widget", title := "F",
         position := ⟨0, 0, 4, 10⟩, size := WidgetSize.small, config := none }] 1 1
      = ⟨0, 10, 1, 1⟩ :=
  c3_placement_fallback _ 1 1 (by decide) (by decide) (by decide)

/-- Pointwise congruence for `List.map`. -/
theorem mapCongrOn {α β : Type _} {f g : α → β} {l : List α}
    (h : ∀ a ∈ l, f a = g a) : l.map f = l.map g := by
  induction l with
  | nil => rfl
  | cons a l ih =>
    simp only [List.map_cons]
    rw [h a (List.mem_cons_self a l), ih fun b hb => h b (List.mem_cons_of_mem a hb)]

/-- A map that fixes layouts whose id differs from `cur` and preserves ids
leaves the non-`cur` fragment of the list unchanged. -/
theorem filter_map_frame (cur : String) (f : DashboardLayout → DashboardLayout)
    (hKeep : ∀ l, (l.id == cur) = false → f l = l)
    (hId : ∀ l, (f l).id = l.id) (xs : List DashboardLayout) :
    (xs.map f).filter (fun l => !(l.id == cur)) = xs.filter (fun l => !(l.id == cur)) := by
  induction xs with
  | nil => rfl
  | cons a xs ih =>
    simp only [List.map_cons, List.filter_cons]
    cases ha : (a.id == cur) with
    | false =>
      rw [hKeep a ha]
      simp [ha, ih]
    | true =>
      have hfa : ((f a).id == cur) = true := by rw [hId a]; exact ha
      simp [ha, hfa, ih]

/-- When some layout matches the target id and the registry lookup misses,
the `addWidget` updater throws the NotFound error. -/
theorem mapAddWidget_err (registry : WidgetRegistry) (wid : String) (title : Option String)
    (cfg : Option Obj) (now : Nat) (cur : String) (ls : List DashboardLayout)
    (hmem : ∃ l ∈ ls, (l.id == cur) = true)
    (hmiss : lookupRegistry registry wid = none) :
    mapAddWidget registry wid title cfg now cur ls =
      Except.error ("Widget with ID " ++ wid ++ " not found in registry") := by
  induction ls with
  | nil => simp at hmem
  | cons l rest ih =>
    obtain ⟨l', hl', hbeq⟩ := hmem
    cases hl : (l.id == cur) with
    | true =>
      simp [mapAddWidget, hl, createWidgetInstance, hmiss]
    | false =>
      have hmem' : ∃ a ∈ rest, (a.id == cur) = true := by
        rcases List.mem_cons.mp hl' with rfl | hr
        · rw [hl] at hbeq; cases hbeq
        · exact ⟨l', hr, hbeq⟩
      simp [mapAddWidget, hl, ih hmem']

/-- A successful `addWidget` updater leaves every layout whose id differs
from the target unchanged. -/
theorem mapAddWidget_ok_frame (registry : WidgetRegistry) (wid : String) (title : Option String)
    (cfg : Option Obj) (now : Nat) (cur : String) (ls ls' : List DashboardLayout)
    (hok : mapAddWidget registry wid title cfg now cur ls = Except.ok ls') :
    ls'.filter (fun l => !(l.id == cur)) = ls.filter (fun l => !(l.id == cur)) := by
  induction ls generalizing ls' with
  | nil =>
    simp only [mapAddWidget] at hok
    cases hok
    rfl
  | cons l rest ih =>
    cases hl : (l.id == cur) with
    | true =>
      simp only [mapAddWidget, hl, if_pos rfl] at hok
      cases hCW : createWidgetInstance registry wid ("widget-" ++ wid ++ "-" ++ toString now)
          title cfg none with
      | none => rw [hCW] at hok; cases hok
      | some wi =>
        rw [hCW] at hok
        cases hrec : mapAddWidget registry wid title cfg now cur rest with
        | ok rest' =>
          rw [hrec] at hok
          cases hok
          simp only [List.filter_cons, hl]
          simp [ih rest' hrec]
        | error e => rw [hrec] at hok; cases hok
    | false =>
      simp only [mapAddWidget, hl] at hok
      cases hrec : mapAddWidget registry wid title cfg now cur rest with
      | ok rest' =>
        rw [hrec] at hok
        cases hok
        simp only [List.filter_cons, hl]
        simp [ih rest' hrec]
      | error e => rw [hrec] at hok; cases hok

/-- Counterexample to C4: deleting an id (`"ghost"`) that is not present in a
non-empty layout list does NOT always leave the active pointer unchanged —
when the dangling active pointer equals the deleted id, the pointer is reset
to the first layout's id. -/
theorem c4_counterexample :
    deleteLayout "ghost" ⟨[⟨"layout-1", "Main", [], 0, 0⟩], "ghost"⟩
      = ⟨[⟨"layout-1", "Main", [], 0, 0⟩], "layout-1"⟩ ∧
    ("ghost" : String) ≠ "layout-1" := by
  constructor
  · rfl
  · decide

/-- C4 (amended): `deleteLayout` repairs the active pointer — (i) when the
deleted id equals the active pointer and layouts remain after the filter,
the first remaining layout (in list order) becomes active; (ii) when no
layout remains, the pointer becomes the empty string; (iii) deleting an id
not present in a non-empty list, when it also differs from the active
pointer, changes nothing; (iv) when the absent deleted id equals the
(dangling) active pointer, the layout list is unchanged but the pointer is
reset to the first layout's id. -/
theorem c4_delete_layout_repair (s : DashState) (delId : String) :
    (delId = s.currentLayoutId →
      ∀ L rest, s.layouts.filter (fun l => !(l.id == delId)) = L :: rest →
        (deleteLayout delId s).currentLayoutId = L.id ∧ L ∈ (deleteLayout delId s).layouts) ∧
    (s.layouts.filter (fun l => !(l.id == delId)) = [] →
      (deleteLayout delId s).currentLayoutId = "") ∧
    ((∀ l ∈ s.layouts, l.id ≠ delId) → delId ≠ s.currentLayoutId → s.layouts ≠ [] →
      deleteLayout delId s = s) ∧
    ((∀ l ∈ s.layouts, l.id ≠ delId) → delId = s.currentLayoutId →
      ∀ L rest, s.layouts = L :: rest →
        (deleteLayout delId s).layouts = s.layouts ∧
        (deleteLayout delId s).currentLayoutId = L.id) := by
  have hself : ∀ (xs : List DashboardLayout), (∀ l ∈ xs, l.id ≠ delId) →
      xs.filter (fun l => !(l.id == delId)) = xs := by
    intro xs hall
    apply List.filter_eq_self.mpr
    intro a ha
    simpa using hall a ha
  refine ⟨?_, ?_, ?_, ?_⟩
  · intro heq L rest hcons
    subst heq
    simp [deleteLayout, hcons]
  · intro hnil
    simp [deleteLayout, hnil]
  · intro habsent hne hnonempty
    have hf := hself s.layouts habsent
    cases hs : s.layouts with
    | nil => exact absurd hs hnonempty
    | cons a tail =>
      have hbeq : (delId == s.currentLayoutId) = false := by
        simpa using hne
      cases s with
      | mk layouts cur =>
        simp only at hs hf ⊢
        subst hs
        simp [deleteLayout, hf, hbeq]
  · intro habsent heq L rest hcons
    subst heq
    have hf := hself s.layouts habsent
    rw [hcons] at hf
    simp [deleteLayout, hcons, hf]

/-- Witness for C4 (amended), exercising all four conjuncts: deleting the
active of two layouts promotes the first remaining one; deleting the last
layout clears the pointer; deleting an absent id distinct from the pointer
is a no-op; deleting an absent id equal to the dangling pointer resets the
pointer to the first layout. -/
theorem c4_delete_layout_repair_witness :
    (deleteLayout "layout-1"
        ⟨[⟨"layout-1", "A", [], 0, 0⟩, ⟨"layout-2", "B", [], 0, 0⟩], "layout-1"⟩).currentLayoutId
      = "layout-2" ∧
    (deleteLayout "layout-1" ⟨[⟨"layout-1", "A", [], 0, 0⟩], "layout-1"⟩).currentLayoutId = "" ∧
    deleteLayout "nope" ⟨[⟨"layout-1", "A", [], 0, 0⟩], "layout-1"⟩
      = ⟨[⟨"layout-1", "A", [], 0, 0⟩], "layout-1"⟩ ∧
    (deleteLayout "ghost" ⟨[⟨"layout-1", "A", [], 0, 0⟩], "ghost"⟩).currentLayoutId
      = "layout-1" := by
  refine ⟨?_, ?_, ?_, ?_⟩
  · exact ((c4_delete_layout_repair
      ⟨[⟨"layout-1", "A", [], 0, 0⟩, ⟨"layout-2", "B", [], 0, 0⟩], "layout-1"⟩
      "layout-1").1 rfl ⟨"layout-2", "B", [], 0, 0⟩ [] (by decide)).1
  · exact (c4_delete_layout_repair ⟨[⟨"layout-1", "A", [], 0, 0⟩], "layout-1"⟩
      "layout-1").2.1 (by decide)
  · exact (c4_delete_layout_repair ⟨[⟨"layout-1", "A", [], 0, 0⟩], "layout-1"⟩
      "nope").2.2.1 (by decide) (by decide) (by decide)
  · exact ((c4_delete_layout_repair ⟨[⟨"layout-1", "A", [], 0, 0⟩], "ghost"⟩
      "ghost").2.2.2 (by decide) rfl ⟨"layout-1", "A", [], 0, 0⟩ [] rfl).2

/-- Counterexample to C5: `addWidget` with a definition id that is not in
the registry does NOT surface the NotFound condition to its caller — the
error thrown inside the `setLayouts` updater is caught by the storage
setter's try/catch and only logged (the second component below is the
logged message); the call itself completes normally.  The state is left
unchanged, as the claim also says. -/
theorem c5_counterexample :
    addWidgetRun widgetRegistry "bogus-widget" none none 7
        ⟨[⟨"layout-0", "Ops", [], 0, 0⟩], "layout-0"⟩
      = (⟨[⟨"layout-0", "Ops", [], 0, 0⟩], "layout-0"⟩,
         some "Widget with ID bogus-widget not found in registry") := by
  rfl

/-- C5 (amended): `addWidget` with an unknown definition id, called while an
active layout exists, raises the NotFound error inside the storage setter's
updater; the setter catches and logs it rather than surfacing it, the call
returns normally, and the layout list and active pointer are unchanged. -/
theorem c5_notfound_logged (s : DashState) (wid : String) (title : Option String)
    (cfg : Option Obj) (now : Nat)
    (hmiss : lookupRegistry widgetRegistry wid = none)
    (hactive : (currentLayoutOf s).isSome = true) :
    addWidgetRun widgetRegistry wid title cfg now s =
      (s, some ("Widget with ID " ++ wid ++ " not found in registry")) := by
  obtain ⟨L, hL⟩ := Option.isSome_iff_exists.mp hactive
  have hL' : s.layouts.find? (fun l => l.id == s.currentLayoutId) = some L := hL
  have hpa := List.find?_some hL'
  have hmem : ∃ l ∈ s.layouts, (l.id == s.currentLayoutId) = true :=
    ⟨L, List.mem_of_find?_eq_some hL', hpa⟩
  have herr := mapAddWidget_err widgetRegistry wid title cfg now s.currentLayoutId
    s.layouts hmem hmiss
  simp [addWidgetRun, hL, herr]

/-- Witness for C5 (amended) at a concrete state and unknown id. -/
theorem c5_notfound_logged_witness :
    addWidgetRun widgetRegistry "nope" none none 3
        ⟨[⟨"layout-1", "Main", [], 0, 0⟩], "layout-1"⟩
      = (⟨[⟨"layout-1", "Main", [], 0, 0⟩], "layout-1"⟩,
         some ("Widget with ID " ++ "nope" ++ " not found in registry")) :=
  c5_notfound_logged ⟨[⟨"layout-1", "Main", [], 0, 0⟩], "layout-1"⟩ "nope" none none 3
    (by decide) (by decide)

/-- C6 (code bug): `addWidget` on a state with no layouts and no active
pointer loses the implicitly created "Default Layout": the `createLayout`
write is overwritten by `addWidget`'s second `setLayouts` write, which maps
the stale snapshot with the stale (empty) pointer, so the committed layout
list stays empty, the active pointer dangles at the fresh `layout-5` id,
and the widget instance is added nowhere. -/
theorem c6_default_layout_lost :
    addWidgetRun widgetRegistry "status-widget" none none 5 ⟨[], ""⟩
      = (⟨[], "layout-5"⟩, none) := by
  rfl

/-- Counterexample to C7: `removeWidget` twice is observably different from
once — the second call refreshes the active layout's `updatedAt` timestamp
(2 instead of 1 here), which the claim counts as observable state. -/
theorem c7_counterexample :
    removeWidget "a" 2 (removeWidget "a" 1
        ⟨[⟨"layout-0", "Ops",
            [⟨"a", "status-widget", "A", ⟨0, 0, 1, 1⟩, WidgetSize.small, none⟩], 0, 0⟩],
          "layout-0"⟩)
      ≠ removeWidget "a" 1
        ⟨[⟨"layout-0", "Ops",
            [⟨"a", "status-widget", "A", ⟨0, 0, 1, 1⟩, WidgetSize.small, none⟩], 0, 0⟩],
          "layout-0"⟩ := by
  decide

/-- C7 (amended): `removeWidget` is idempotent up to the `updatedAt`
timestamp — a second `removeWidget` of the same id at time `t2` yields
exactly the state of a single call performed at `t2`: the widget lists and
the active pointer match a single call, and the only effect of the second
call is refreshing the active layout's `updatedAt`.  With `t2 = t1` this is
literal idempotence. -/
theorem c7_remove_absorb (s : DashState) (iid : String) (t1 t2 : Nat) :
    removeWidget iid t2 (removeWidget iid t1 s) = removeWidget iid t2 s := by
  unfold removeWidget
  simp only [List.map_map]
  refine congrArg (fun ls => DashState.mk ls s.currentLayoutId) ?_
  apply mapCongrOn
  intro l hl
  by_cases hc : l.id = s.currentLayoutId
  · simp [hc, List.filter_filter]
  · simp [hc]

/-- C8: the storage wrapper's read fails soft — for every key, a key that
was never written yields the caller-supplied default, and a stored value on
which the deserializer fails (the modelled `JSON.parse` throw) also yields
the default; the function is total, so nothing is ever thrown to the
caller. -/
theorem c8_storage_read_fails_soft (deserializer : String → Option JsonVal)
    (defaultValue : Option JsonVal) (store : LocalStore) (key : String) :
    (lsGetItem store key = none →
      getStoredValue true deserializer defaultValue store key = defaultValue) ∧
    (∀ item, lsGetItem store key = some item → deserializer item = none →
      getStoredValue true deserializer defaultValue store key = defaultValue) := by
  constructor
  · intro habsent
    simp [getStoredValue, habsent]
  · intro item hitem hfail
    simp [getStoredValue, hitem, hfail]

/-- Witness for C8: an absent key and a corrupted value both fall back to
the default `42`. -/
theorem c8_storage_read_fails_soft_witness :
    getStoredValue true (fun _ => none) (some (JsonVal.num 42)) [("k", "oops")] "missing"
      = some (JsonVal.num 42) ∧
    getStoredValue true (fun _ => none) (some (JsonVal.num 42)) [("k", "oops")] "k"
      = some (JsonVal.num 42) :=
  ⟨(c8_storage_read_fails_soft (fun _ => none) (some (JsonVal.num 42)) [("k", "oops")] "missing").1
      (by decide),
   (c8_storage_read_fails_soft (fun _ => none) (some (JsonVal.num 42)) [("k", "oops")] "k").2
      "oops" (by decide) rfl⟩

/-- Field lookup through a list append: the left list wins. -/
theorem obj_get_append (xs ys : Obj) (k : String) :
    Obj.get (xs ++ ys) k = (Obj.get xs k).or (Obj.get ys k) := by
  simp only [Obj.get, List.find?_append]
  cases h : xs.find? (fun p => p.1 == k) <;> simp [h]

/-- Field lookup after filtering out the keys of `b`: a key of `b` is gone,
any other key looks up as before. -/
theorem obj_get_filter_out (a b : Obj) (k : String) :
    Obj.get (a.filter (fun p => !(Obj.hasKey b p.1))) k =
      if Obj.hasKey b k then none else Obj.get a k := by
  induction a with
  | nil => simp [Obj.get]
  | cons p rest ih =>
    by_cases hk : p.1 = k
    · subst hk
      cases hhas : Obj.hasKey b p.1 with
      | true => simp [List.filter_cons, hhas, ih]
      | false => simp [List.filter_cons, hhas, Obj.get, List.find?_cons]
    · have hpk : (p.1 == k) = false := by simpa using hk
      cases hhas : Obj.hasKey b p.1 with
      | true =>
        rw [List.filter_cons, hhas]
        simp only [Bool.not_true, Bool.false_eq_true, if_false]
        rw [ih]
        have hskip : Obj.get (p :: rest) k = Obj.get rest k := by
          simp [Obj.get, List.find?_cons, hpk]
        rw [hskip]
      | false =>
        rw [List.filter_cons, hhas]
        simp only [Bool.not_false, if_true]
        have hskip1 : Obj.get (p :: rest.filter (fun q => !(Obj.hasKey b q.1))) k
            = Obj.get (rest.filter (fun q => !(Obj.hasKey b q.1))) k := by
          simp [Obj.get, List.find?_cons, hpk]
        have hskip2 : Obj.get (p :: rest) k = Obj.get rest k := by
          simp [Obj.get, List.find?_cons, hpk]
        rw [hskip1, ih, hskip2]

/-- Field lookup through a JS object spread: fields of `b` win, other
fields fall through to `a`. -/
theorem obj_get_spread (a b : Obj) (k : String) :
    Obj.get (Obj.spread a b) k =
      match Obj.get b k with
      | some v => some v
      | none => Obj.get a k := by
  rw [Obj.spread, obj_get_append, obj_get_filter_out]
  cases hb : Obj.get b k with
  | some v =>
    have : Obj.hasKey b k = true := by simp [Obj.hasKey, hb]
    simp [this]
  | none =>
    have : Obj.hasKey b k = false := by simp [Obj.hasKey, hb]
    simp [this, hb]

/-- Counterexample to C9: `updateConfig` applied to a plain object update
replaces the settings wholesale — starting from settings with fields `a`
and `b`, the update `[("a", 9)]` leaves a configuration in which the
untouched field `b` is gone. -/
theorem c9_counterexample :
    Obj.get
      (readConfig none []
        (some (updateConfig "w" "i" none []
          (ConfigUpdate.value [("a", JsonVal.num 9)]) 1
          (some ⟨"w", "i", [("a", JsonVal.num 1), ("b", JsonVal.num 2)], "1.0.0", 0⟩))))
      "b" = none ∧
    Obj.get [("a", JsonVal.num 1), ("b", JsonVal.num 2)] "b" = some (JsonVal.num 2) := by
  constructor
  · rfl
  · rfl

/-- C9 (amended): `updateConfig` given a plain object replaces the settings
wholesale; partial-update semantics hold exactly when the caller passes a
merge function (`prev => \x7b...prev, ...upd\x7d`, as the repository's callers
do): reading the config afterwards reflects every field of the update and
preserves every field not mentioned in it, and the wrapper's `widgetId`,
`instanceId` and `version` fields are preserved by either form. -/
theorem c9_update_config_merge (cd : WidgetConfigData) (upd : Obj) (now : Nat) (k : String)
    (initialConfig : Option Obj) (defaultConfig : Obj) :
    (updateConfig cd.widgetId cd.instanceId initialConfig defaultConfig
        (ConfigUpdate.value upd) now (some cd)).settings = upd ∧
    (Obj.get
        (readConfig initialConfig defaultConfig
          (some (updateConfig cd.widgetId cd.instanceId initialConfig defaultConfig
            (ConfigUpdate.fn (fun prev => Obj.spread prev upd)) now (some cd))))
        k
      = match Obj.get upd k with
        | some v => some v
        | none => Obj.get cd.settings k) ∧
    (updateConfig cd.widgetId cd.instanceId initialConfig defaultConfig
        (ConfigUpdate.fn (fun prev => Obj.spread prev upd)) now (some cd)).widgetId
      = cd.widgetId ∧
    (updateConfig cd.widgetId cd.instanceId initialConfig defaultConfig
        (ConfigUpdate.fn (fun prev => Obj.spread prev upd)) now (some cd)).instanceId
      = cd.instanceId ∧
    (updateConfig cd.widgetId cd.instanceId initialConfig defaultConfig
        (ConfigUpdate.fn (fun prev => Obj.spread prev upd)) now (some cd)).version
      = cd.version := by
  refine ⟨rfl, ?_, rfl, rfl, rfl⟩
  simp only [readConfig, updateConfig, applyConfigUpdate]
  exact obj_get_spread cd.settings upd k

/-- Rectangle overlap is symmetric. -/
theorem rectsOverlap_symm {p q : GridPos} (h : rectsOverlap p q) : rectsOverlap q p := by
  obtain ⟨i, j, h1, h2⟩ := h
  exact ⟨i, j, h2, h1⟩

/-- A successful `findSome?` comes from some list element. -/
theorem findSome?_some_imp {α β : Type _} (f : α → Option β) {l : List α} {b : β}
    (h : l.findSome? f = some b) : ∃ a ∈ l, f a = some b := by
  induction l with
  | nil => cases h
  | cons a l ih =>
    rw [List.findSome?_cons] at h
    cases hfa : f a with
    | some v =>
      rw [hfa] at h
      simp only at h
      exact ⟨a, List.mem_cons_self a l, by rw [hfa, h]⟩
    | none =>
      rw [hfa] at h
      obtain ⟨a', ha', hfa'⟩ := ih h
      exact ⟨a', List.mem_cons_of_mem a ha', hfa'⟩

/-- A position accepted by the fit check does not overlap any existing
widget (its rectangle's cells are all unoccupied). -/
theorem canFit_disjoint (ws : List WidgetInstance) (x y w h : Nat)
    (hfit : canFit (buildGrid ws) x y w h = true) :
    ∀ wi ∈ ws, ¬ rectsOverlap ⟨x, y, w, h⟩ wi.position := by
  intro wi hmem hov
  obtain ⟨i, j, hr, hwcell⟩ := hov
  obtain ⟨hry, hry2, hrx, hrx2⟩ := hr
  dsimp only [cellInRect] at hry hry2 hrx hrx2
  have hall := (canFit_iff ws x y w h).mp hfit
  have hcell := hall (i - y) (by omega) (j - x) (by omega)
  have hi : y + (i - y) = i := by omega
  have hj : x + (j - x) = j := by omega
  rw [hi, hj] at hcell
  obtain ⟨-, -, hocc⟩ := hcell
  have hcov : coversCell wi i j = true := by
    obtain ⟨hq1, hq2, hq3, hq4⟩ := hwcell
    simp only [coversCell, Bool.and_eq_true, decide_eq_true_eq]
    exact ⟨⟨⟨hq1, hq2⟩, hq3⟩, hq4⟩
  have hany : specCellOccupied ws i j = true := by
    simp only [specCellOccupied, List.any_eq_true]
    exact ⟨wi, hmem, hcov⟩
  rw [hany] at hocc
  cases hocc

/-- The placement result is either the `(0, 10)` fallback or an in-grid
position accepted by the fit check. -/
theorem findAvailablePosition_cases (ws : List WidgetInstance) (w h : Nat) :
    findAvailablePosition ws w h = ⟨0, gridHeight, w, h⟩ ∨
    ∃ x y, findAvailablePosition ws w h = ⟨x, y, w, h⟩ ∧ y < gridHeight ∧
      canFit (buildGrid ws) x y w h = true := by
  unfold findAvailablePosition
  cases hscan : (List.range gridHeight).findSome? (fun y =>
      ((List.range (gridWidth + 1 - w)).find? (fun x => canFit (buildGrid ws) x y w h)).map
        (fun x => GridPos.mk x y w h)) with
  | none =>
    left
    dsimp only
    rw [hscan]
  | some p =>
    right
    obtain ⟨yv, hymem, hyeq⟩ := findSome?_some_imp _ hscan
    obtain ⟨xv, hfind, hxeq⟩ := Option.map_eq_some'.mp hyeq
    have hcf := List.find?_some hfind
    refine ⟨xv, yv, ?_, List.mem_range.mp hymem, hcf⟩
    dsimp only
    rw [hscan]
    exact hxeq.symm

/-- One `addWidget` call on a single-layout active state: either nothing
changes (registry miss) or the new instance, placed by
`findAvailablePosition` over the current widgets, is appended. -/
theorem addWidgetRun_single (wid : String) (title : Option String) (cfg : Option Obj)
    (now : Nat) (L : DashboardLayout) :
    (addWidgetRun widgetRegistry wid title cfg now ⟨[L], L.id⟩).1 = ⟨[L], L.id⟩ ∨
    ∃ wi : WidgetInstance,
      wi.position = findAvailablePosition L.widgets
        (defaultWidgetDimensions wi.size).1 (defaultWidgetDimensions wi.size).2 ∧
      (addWidgetRun widgetRegistry wid title cfg now ⟨[L], L.id⟩).1 =
        ⟨[{ L with widgets := L.widgets ++ [wi], updatedAt := now }], L.id⟩ := by
  have hcur : currentLayoutOf ⟨[L], L.id⟩ = some L := by
    simp [currentLayoutOf, List.find?_cons]
  cases hCW : createWidgetInstance widgetRegistry wid ("widget-" ++ wid ++ "-" ++ toString now)
      title cfg none with
  | none =>
    left
    have hmap : mapAddWidget widgetRegistry wid title cfg now L.id [L] =
        Except.error ("Widget with ID " ++ wid ++ " not found in registry") := by
      simp [mapAddWidget, hCW]
    simp [addWidgetRun, hcur, hmap]
  | some wi0 =>
    right
    refine ⟨{ id := "widget-" ++ wid ++ "-" ++ toString now
              widgetId := wid
              title := jsOr title wi0.title
              position := findAvailablePosition L.widgets
                (defaultWidgetDimensions wi0.size).1 (defaultWidgetDimensions wi0.size).2
              size := wi0.size
              config := cfg }, rfl, ?_⟩
    have hmap : mapAddWidget widgetRegistry wid title cfg now L.id [L] =
        Except.ok [{ L with
          widgets := L.widgets ++
            [{ id := "widget-" ++ wid ++ "-" ++ toString now
               widgetId := wid
               title := jsOr title wi0.title
               position := findAvailablePosition L.widgets
                 (defaultWidgetDimensions wi0.size).1 (defaultWidgetDimensions wi0.size).2
               size := wi0.size
               config := cfg }]
          updatedAt := now }] := by
      simp [mapAddWidget, hCW]
    simp [addWidgetRun, hcur, hmap]

/-- Every size category has a positive footprint height. -/
theorem defaultWidgetDimensions_pos (sz : WidgetSize) :
    1 ≤ (defaultWidgetDimensions sz).2 := by
  cases sz <;> simp [defaultWidgetDimensions]

/-- One `addWidget` step on a single-layout active state preserves the
single-layout shape, only appends widgets, and preserves pairwise
disjointness as long as every widget (including the appended one) stays
within the pre-scanned grid. -/
theorem addStep_single (c : AddCall) (L : DashboardLayout) :
    ∃ L', (addWidgetRun widgetRegistry c.widgetId c.title c.config c.now ⟨[L], L.id⟩).1
        = ⟨[L'], L'.id⟩ ∧
      L'.id = L.id ∧ (∀ wi ∈ L.widgets, wi ∈ L'.widgets) ∧
      ((∀ wi ∈ L'.widgets, withinGrid wi) →
        pairwiseDisjoint L.widgets → pairwiseDisjoint L'.widgets) := by
  rcases addWidgetRun_single c.widgetId c.title c.config c.now L with hsame | ⟨wi, hpos, hstate⟩
  · exact ⟨L, hsame, rfl, fun wi h => h, fun _ hp => hp⟩
  · refine ⟨{ L with widgets := L.widgets ++ [wi], updatedAt := c.now }, hstate, rfl,
      fun wi' h => List.mem_append_left _ h, ?_⟩
    intro hin hpd
    have hwiMem : wi ∈ L.widgets ++ [wi] :=
      List.mem_append_right _ (List.mem_singleton.mpr rfl)
    have hwin : withinGrid wi := hin wi hwiMem
    obtain ⟨hwy, hwx⟩ := hwin
    have hhpos := defaultWidgetDimensions_pos wi.size
    rcases findAvailablePosition_cases L.widgets
        (defaultWidgetDimensions wi.size).1 (defaultWidgetDimensions wi.size).2 with
      hfb | ⟨x, y, heq, hylt, hfit⟩
    · rw [hfb] at hpos
      rw [hpos] at hwy
      dsimp only at hwy
      omega
    · rw [heq] at hpos
      have hdisj := canFit_disjoint L.widgets x y
        (defaultWidgetDimensions wi.size).1 (defaultWidgetDimensions wi.size).2 hfit
    -- pairwise over the appended list
      unfold pairwiseDisjoint
      rw [List.pairwise_append]
      refine ⟨hpd, List.pairwise_singleton _ _, ?_⟩
      intro a ha b hb
      rw [List.mem_singleton.mp hb]
      intro hov
      exact hdisj a ha (by rw [← hpos]; exact rectsOverlap_symm hov)

/-- Running a sequence of `addWidget` calls on a single-layout active state
keeps the single-layout shape, only accumulates widgets, and preserves
pairwise disjointness under the all-within-grid condition. -/
theorem runAdds_single (calls : List AddCall) (L : DashboardLayout) :
    ∃ L', runAdds widgetRegistry calls ⟨[L], L.id⟩ = ⟨[L'], L'.id⟩ ∧ L'.id = L.id ∧
      (∀ wi ∈ L.widgets, wi ∈ L'.widgets) ∧
      ((∀ wi ∈ L'.widgets, withinGrid wi) →
        pairwiseDisjoint L.widgets → pairwiseDisjoint L'.widgets) := by
  induction calls generalizing L with
  | nil => exact ⟨L, rfl, rfl, fun wi h => h, fun _ hp => hp⟩
  | cons c cs ih =>
    obtain ⟨L1, hstate, hid, hmono1, hpres1⟩ := addStep_single c L
    obtain ⟨L', hstate', hid', hmono2, hpres2⟩ := ih L1
    refine ⟨L', ?_, by rw [hid', hid], fun wi h => hmono2 wi (hmono1 wi h), ?_⟩
    · show runAdds widgetRegistry cs
        (addWidgetRun widgetRegistry c.widgetId c.title c.config c.now ⟨[L], L.id⟩).1
        = ⟨[L'], L'.id⟩
      rw [hstate]
      exact hstate'
    · intro hin hpd
      exact hpres2 hin (hpres1 (fun wi h => hin wi (hmono2 wi h)) hpd)

set_option maxRecDepth 8000 in
/-- Counterexample to C2: twelve `addWidget("code-editor")` calls (all ids
in the registry) into an initially empty active layout produce two distinct
instances (list entries 10 and 11, ids `widget-code-editor-11` and
`widget-code-editor-12`) both placed at the constant overflow fallback
`(0, 10, 2, 2)` — their rectangles intersect, violating the no-overlap
invariant. -/
theorem c2_counterexample :
    ((runAdds widgetRegistry c2calls ⟨[⟨"layout-0", "Ops", [], 0, 0⟩], "layout-0"⟩).layouts.head?.map
        (fun l => (l.widgets.map (fun wi => (wi.id, wi.position))).drop 10))
      = some [("widget-code-editor-11", ⟨0, 10, 2, 2⟩),
              ("widget-code-editor-12", ⟨0, 10, 2, 2⟩)] ∧
    rectsOverlap ⟨0, 10, 2, 2⟩ ⟨0, 10, 2, 2⟩ := by
  constructor
  · decide
  · refine ⟨10, 0, ?_, ?_⟩ <;> (dsimp [cellInRect]; omega)

/-- C2 (amended): for every sequence of `addWidget` calls (each definition
id present in the registry) applied to a state holding a single initially
empty active layout, as long as every instance of the resulting layout lies
within the pre-scanned 4×10 grid — i.e. no placement overflowed to the
constant `(0, 10)` fallback — no two instances' rectangles intersect.
(Applying the theorem to every prefix of the sequence gives the invariant
after each call.) -/
theorem c2_no_overlap_within_grid (calls : List AddCall) (L0 : DashboardLayout)
    (hempty : L0.widgets = [])
    (hreg : ∀ c ∈ calls, (lookupRegistry widgetRegistry c.widgetId).isSome = true)
    (hin : ∀ wi ∈ activeWidgets (runAdds widgetRegistry calls ⟨[L0], L0.id⟩), withinGrid wi) :
    pairwiseDisjoint (activeWidgets (runAdds widgetRegistry calls ⟨[L0], L0.id⟩)) := by
  obtain ⟨L', hstate, hid, hmono, hpres⟩ := runAdds_single calls L0
  have hactive : activeWidgets (runAdds widgetRegistry calls ⟨[L0], L0.id⟩) = L'.widgets := by
    rw [hstate]
    simp [activeWidgets, currentLayoutOf, List.find?_cons]
  rw [hactive] at hin ⊢
  apply hpres hin
  rw [hempty]
  exact List.Pairwise.nil

/-- Witness for C2 (amended): two small widgets added to an empty layout
stay inside the grid and are disjoint. -/
theorem c2_no_overlap_within_grid_witness :
    pairwiseDisjoint (activeWidgets (runAdds widgetRegistry
      [⟨"status-widget", none, none, 1⟩, ⟨"status-widget", none, none, 2⟩]
      ⟨[⟨"layout-0", "Ops", [], 0, 0⟩], "layout-0"⟩)) :=
  c2_no_overlap_within_grid
    [⟨"status-widget", none, none, 1⟩, ⟨"status-widget", none, none, 2⟩]
    ⟨"layout-0", "Ops", [], 0, 0⟩ rfl (by decide) (by decide)

/-- Counterexample to C10: `addWidget` does change the active-layout
pointer when no active layout exists — on the empty state the pointer moves
from `""` to the id of the implicitly created (and then lost) layout. -/
theorem c10_counterexample :
    (addWidgetRun widgetRegistry "status-widget" none none 3 ⟨[], ""⟩).1.currentLayoutId
      = "layout-3" ∧ ("layout-3" : String) ≠ "" := by
  exact ⟨rfl, by decide⟩

/-- C10 (amended): `removeWidget`, `updateWidget` and `updateWidgetPositions`
always leave every layout other than the active one unchanged and never
move the active-layout pointer; `addWidget` does the same provided an
active layout exists (when none does, it moves the pointer to the id of the
implicitly created layout, while still leaving all existing layouts
unchanged). -/
theorem c10_widget_ops_frame (s : DashState)
    (wid : String) (title : Option String) (cfg : Option Obj) (t1 : Nat)
    (iid : String) (t2 : Nat)
    (iid2 : String) (u : InstanceUpdate) (t3 : Nat)
    (posUpdates : List (String × GridPos)) (t4 : Nat) :
    ((currentLayoutOf s).isSome = true →
      (addWidgetRun widgetRegistry wid title cfg t1 s).1.currentLayoutId = s.currentLayoutId ∧
      sameOnOthers s.currentLayoutId
        ((addWidgetRun widgetRegistry wid title cfg t1 s).1.layouts) s.layouts) ∧
    ((removeWidget iid t2 s).currentLayoutId = s.currentLayoutId ∧
      sameOnOthers s.currentLayoutId (removeWidget iid t2 s).layouts s.layouts) ∧
    ((updateWidget iid2 u t3 s).currentLayoutId = s.currentLayoutId ∧
      sameOnOthers s.currentLayoutId (updateWidget iid2 u t3 s).layouts s.layouts) ∧
    ((updateWidgetPositions posUpdates t4 s).currentLayoutId = s.currentLayoutId ∧
      sameOnOthers s.currentLayoutId (updateWidgetPositions posUpdates t4 s).layouts s.layouts) := by
  refine ⟨?_, ⟨rfl, ?_⟩, ⟨rfl, ?_⟩, ⟨rfl, ?_⟩⟩
  · intro hactive
    obtain ⟨L, hL⟩ := Option.isSome_iff_exists.mp hactive
    cases hmap : mapAddWidget widgetRegistry wid title cfg t1 s.currentLayoutId s.layouts with
    | ok ls' =>
      have hstate : (addWidgetRun widgetRegistry wid title cfg t1 s).1
          = ⟨ls', s.currentLayoutId⟩ := by
        simp [addWidgetRun, hL, hmap]
      rw [hstate]
      exact ⟨rfl, mapAddWidget_ok_frame widgetRegistry wid title cfg t1
        s.currentLayoutId s.layouts ls' hmap⟩
    | error e =>
      have hstate : (addWidgetRun widgetRegistry wid title cfg t1 s).1
          = ⟨s.layouts, s.currentLayoutId⟩ := by
        simp [addWidgetRun, hL, hmap]
      rw [hstate]
      exact ⟨rfl, rfl⟩
  · unfold removeWidget sameOnOthers
    apply filter_map_frame
    · intro l h
      simp [h]
    · intro l
      cases h : (l.id == s.currentLayoutId) <;> simp [h]
  · unfold updateWidget sameOnOthers
    apply filter_map_frame
    · intro l h
      simp [h]
    · intro l
      cases h : (l.id == s.currentLayoutId) <;> simp [h]
  · unfold updateWidgetPositions sameOnOthers
    apply filter_map_frame
    · intro l h
      simp [h]
    · intro l
      cases h : (l.id == s.currentLayoutId) <;> simp [h]

/-- Witness for C10 (amended) at a concrete single-layout active state. -/
theorem c10_widget_ops_frame_witness :
    (addWidgetRun widgetRegistry "status-widget" none none 9
        ⟨[⟨"layout-1", "Main", [], 0, 0⟩], "layout-1"⟩).1.currentLayoutId = "layout-1" ∧
    (removeWidget "z" 9 ⟨[⟨"layout-1", "Main", [], 0, 0⟩], "layout-1"⟩).currentLayoutId
      = "layout-1" := by
  have h := c10_widget_ops_frame ⟨[⟨"layout-1", "Main", [], 0, 0⟩], "layout-1"⟩
    "status-widget" none none 9 "z" 9 "z" ⟨none, none, none, none, none, none⟩ 9 [] 9
  exact ⟨(h.1 (by decide)).1, h.2.1.1⟩
